import Mathlib

/-!
Shallow embedding of the survey/voting HTTP backend (files `src/main.py` and
`src/api/index.py`).  The two Python revisions share route logic but differ in
connection management, caps and failure statuses; both are embedded, in the
namespaces `Main` (for `src/main.py`) and `ApiIndex` (for `src/api/index.py`).

Machine details that do not live in the repository (the BSON ObjectId hex
format, Mongo's `to_list` cursor cap, Python dict assignment, pydantic body
validation) are embedded from their documented behaviour, at the granularity
the handlers use them.
-/

set_option autoImplicit false

namespace Survey

/-- BSON/JSON values as the handlers see them: strings, integers, lists,
null, datetimes (modelled as an integer UTC timestamp) and objects. -/
inductive BVal where
  | vstr : String → BVal
  | vint : Int → BVal
  | vlist : List BVal → BVal
  | vnull : BVal
  | vdt : Int → BVal
  | vobj : List (String × BVal) → BVal

/-- A document / Python dict: an ordered association list of fields. -/
abbrev Dict := List (String × BVal)

/-- Python `d[k] = v`: replace the first binding of `k` in place, else append. -/
def dictSet : Dict → String → BVal → Dict
  | [], k, v => [(k, v)]
  | (k1, v1) :: rest, k, v =>
      if k1 = k then (k, v) :: rest else (k1, v1) :: dictSet rest k v

/-- First value bound to a key, as Python `d[k]` / `d.get(k)`. -/
def dictGet (d : Dict) (k : String) : Option BVal :=
  match d with
  | [] => none
  | (k1, v1) :: rest => if k1 = k then some v1 else dictGet rest k

/-- A BSON ObjectId: 24 hexadecimal nibbles (12 bytes). -/
abbrev ObjectId := { l : List (Fin 16) // l.length = 24 }

/-- Lowercase hex digit of a nibble, as `str(ObjectId)` prints it. -/
def nibbleChar (n : Fin 16) : Char :=
  if n.val < 10 then Char.ofNat (48 + n.val) else Char.ofNat (87 + n.val)

/-- Hex digit to nibble; `ObjectId(...)` accepts both letter cases. -/
def charNibble (c : Char) : Option (Fin 16) :=
  if h : 48 ≤ c.toNat ∧ c.toNat ≤ 57 then some ⟨c.toNat - 48, by omega⟩
  else if h : 97 ≤ c.toNat ∧ c.toNat ≤ 102 then some ⟨c.toNat - 87, by omega⟩
  else if h : 65 ≤ c.toNat ∧ c.toNat ≤ 70 then some ⟨c.toNat - 55, by omega⟩
  else none

def parseNibbles : List Char → Option (List (Fin 16))
  | [] => some []
  | c :: cs =>
      match charNibble c, parseNibbles cs with
      | some n, some ns => some (n :: ns)
      | _, _ => none

/-- `bson.ObjectId(s)`: succeeds exactly on 24-hex-digit strings,
raising `InvalidId` (a plain exception) otherwise. -/
def objectIdOfString (s : String) : Option ObjectId :=
  match parseNibbles s.data with
  | some ns => if h : ns.length = 24 then some ⟨ns, h⟩ else none
  | none => none

/-- `str(oid)`: the 24 lowercase hex digits. -/
def objectIdToString (o : ObjectId) : String :=
  String.mk (o.val.map nibbleChar)

/-- A store-generated ObjectId, indexed by an insertion counter: the 24
base-16 digits of `n`, least significant first. -/
def oidOfNat (n : Nat) : ObjectId :=
  ⟨(List.range 24).map (fun i => ⟨n / 16 ^ i % 16, by omega⟩), by simp⟩

/-! ## Exceptions and the HTTP boundary -/


/-- Exceptions a handler body can raise: `HTTPException(status, detail)`
or a store-layer / driver exception (`except Exception` catches both). -/
inductive Exc where
  | httpExc : Nat → String → Exc
  | dbExc : String → Exc

/-- Python `str(e)` on a caught exception. -/
def excMsg : Exc → String
  | .httpExc code d => toString code ++ ": " ++ d
  | .dbExc m => m

/-- The `try: body except Exception as e: raise HTTPException(status, str(e))`
wrapper every handler uses: any exception raised in the body — including an
`HTTPException` raised there — is re-raised as `HTTPException(status, str(e))`. -/
def guarded (status : Nat) (body : Except Exc BVal) : Except Exc BVal :=
  match body with
  | .ok v => .ok v
  | .error e => .error (.httpExc status (excMsg e))

/-- HTTP status of a handler result: 200 on a returned value, the carried
status on an `HTTPException`; 0 marks a non-HTTP exception escaping the
handler (which FastAPI would surface as a crash of the request). -/
def statusOf : Except Exc BVal → Nat
  | .ok _ => 200
  | .error (.httpExc code _) => code
  | .error (.dbExc _) => 0

/-- True when a non-HTTP exception escaped the handler uncaught. -/
def escapes : Except Exc BVal → Bool
  | .error (.dbExc _) => true
  | _ => false

/-! ## The document store -/

/-- A stored question document (created out-of-band, read-only here). -/
structure QuestionDoc where
  oid : ObjectId
  question_text : String
  qtype : String
  options : Option (List String)
  scale : Option Int

/-- The `voting_app` database: `questions` and `responses` collections,
plus reachability (false models a store that is down: every operation
raises a driver exception) and the store's id-generation counter. -/
structure Store where
  reachable : Bool
  questions : List QuestionDoc
  responses : List (ObjectId × Dict)
  nextId : Nat

def Store.ping (st : Store) : Except Exc Unit :=
  if st.reachable then .ok () else .error (.dbExc "connection refused")

def Store.findQuestions (st : Store) : Except Exc (List QuestionDoc) :=
  if st.reachable then .ok st.questions else .error (.dbExc "connection refused")

def Store.findOneQuestion (st : Store) (oid : ObjectId) : Except Exc (Option QuestionDoc) :=
  if st.reachable then .ok (st.questions.find? (fun q => decide (q.oid = oid)))
  else .error (.dbExc "connection refused")

/-- `insert_one`: the store assigns the next generated ObjectId. -/
def Store.insertOneResponse (st : Store) (d : Dict) : Except Exc (ObjectId × Store) :=
  if st.reachable then
    .ok (oidOfNat st.nextId,
      { st with responses := st.responses ++ [(oidOfNat st.nextId, d)],
                nextId := st.nextId + 1 })
  else .error (.dbExc "connection refused")

/-- The filter `{"question_id": qid}` applied to a response document. -/
def matchesQid (qid : String) (d : Dict) : Bool :=
  match dictGet d "question_id" with
  | some (BVal.vstr s) => s = qid
  | _ => false

def Store.findResponses (st : Store) (qid : String) : Except Exc (List (ObjectId × Dict)) :=
  if st.reachable then .ok (st.responses.filter (fun rd => matchesQid qid rd.2))
  else .error (.dbExc "connection refused")

/-- Motor `cursor.to_list(length=n)`: at most `n` documents when a length is
given, every document when `length=None`. -/
def toListLen {α : Type} (len : Option Nat) (l : List α) : List α :=
  match len with
  | some n => l.take n
  | none => l

/-! ## Connection configuration and client lifecycle -/

/-- `MONGODB_URL = os.getenv("MONGODB_URL")` at module import: absent
variable yields `None`; neither revision validates it or aborts. -/
structure Config where
  mongodbUrl : Option String

def moduleInit (env : String → Option String) : Config :=
  { mongodbUrl := env "MONGODB_URL" }

/-- An `AsyncIOMotorClient` value with the options the code passes. -/
structure Client where
  url : Option String
  serverSelectionTimeoutMS : Nat
  connectTimeoutMS : Nat
  socketTimeoutMS : Nat
  maxPoolSize : Nat
  minPoolSize : Nat
  maxIdleTimeMS : Nat
  retryWrites : Bool

/-- Client construction and close bookkeeping: `cached` is the
`Database.client` class attribute of `src/main.py`; `allocs` counts
`AsyncIOMotorClient(...)` constructions and `closes` counts `client.close()`
calls, so that lifecycle claims are observable. -/
structure DbState where
  cached : Option Client
  allocs : Nat
  closes : Nat

def DbState.fresh : DbState := { cached := none, allocs := 0, closes := 0 }

/-! ## Request bodies and pydantic validation -/

/-- `Union[str, int, List[str]]`, the `response_text` field. -/
inductive RText where
  | rstr : String → RText
  | rint : Int → RText
  | rlist : List String → RText

/-- A validated `Response` pydantic model instance: exactly the three
declared fields. -/
structure ResponseIn where
  question_id : String
  response_text : RText
  submitted_at : Int

def encodeRText : RText → BVal
  | .rstr s => .vstr s
  | .rint n => .vint n
  | .rlist l => .vlist (l.map BVal.vstr)

/-- `response.dict()`: the model's three declared fields, nothing else. -/
def responseModelDict (r : ResponseIn) : Dict :=
  [("question_id", .vstr r.question_id),
   ("response_text", encodeRText r.response_text),
   ("submitted_at", .vdt r.submitted_at)]

def parseStrList : List BVal → Option (List String)
  | [] => some []
  | BVal.vstr s :: rest =>
      match parseStrList rest with
      | some l => some (s :: l)
      | none => none
  | _ => none

def parseRText : BVal → Option RText
  | .vstr s => some (.rstr s)
  | .vint n => some (.rint n)
  | .vlist vs => (parseStrList vs).map RText.rlist
  | _ => none

/-- A `datetime` field value supplied in JSON (numeric timestamp form). -/
def parseDatetimeVal : BVal → Option Int
  | .vint n => some n
  | .vdt n => some n
  | _ => none

/-- Pydantic validation of a request body against the `Response` model:
all three declared fields are required (`submitted_at` has no default),
undeclared fields are ignored.  `none` means FastAPI answers 422. -/
def parseResponseBody (body : Dict) : Option ResponseIn :=
  match dictGet body "question_id", dictGet body "response_text",
        dictGet body "submitted_at" with
  | some (BVal.vstr q), some rt, some sa =>
      match parseRText rt, parseDatetimeVal sa with
      | some r, some t => some { question_id := q, response_text := r, submitted_at := t }
      | _, _ => none
  | _, _, _ => none

/-! ## Serialization of results -/

def optStrList : Option (List String) → BVal
  | some l => .vlist (l.map BVal.vstr)
  | none => .vnull

def optIntVal : Option Int → BVal
  | some n => .vint n
  | none => .vnull

/-- A question document with `question["_id"] = str(question["_id"])` applied. -/
def questionPayload (q : QuestionDoc) : BVal :=
  .vobj [("_id", .vstr (objectIdToString q.oid)),
         ("question_text", .vstr q.question_text),
         ("type", .vstr q.qtype),
         ("options", optStrList q.options),
         ("scale", optIntVal q.scale)]

/-- A response document with its `_id` serialized to a string. -/
def responsePayload (rd : ObjectId × Dict) : BVal :=
  .vobj (("_id", .vstr (objectIdToString rd.1)) :: rd.2)

def healthyBody : BVal :=
  .vobj [("status", .vstr "healthy"), ("database", .vstr "connected")]

/-! ## The `src/main.py` revision: class-cached client, handlers reuse it -/

namespace Main

/-- `AsyncIOMotorClient(MONGODB_URL, tlsCAFile=..., serverSelectionTimeoutMS=5000,
connectTimeoutMS=10000, socketTimeoutMS=20000, maxPoolSize=10, minPoolSize=0,
maxIdleTimeMS=50000, retryWrites=True)`. -/
def mkClient (url : Option String) : Client :=
  { url := url, serverSelectionTimeoutMS := 5000, connectTimeoutMS := 10000,
    socketTimeoutMS := 20000, maxPoolSize := 10, minPoolSize := 0,
    maxIdleTimeMS := 50000, retryWrites := true }

/-- `Database.get_client`: construct the client on first use, then reuse the
class-level cached one. -/
def get_client (cfg : Config) (s : DbState) : Client × DbState :=
  match s.cached with
  | some c => (c, s)
  | none =>
      let c := mkClient cfg.mongodbUrl
      (c, { cached := some c, allocs := s.allocs + 1, closes := s.closes })

/-- `get_database()` = `Database.get_db()`: the handle to `client.voting_app`. -/
def get_database (cfg : Config) (s : DbState) : Client × DbState :=
  get_client cfg s

/-- `GET /api/health` of `src/main.py`. -/
def health_check (cfg : Config) (s : DbState) (st : Store) :
    Except Exc BVal × DbState :=
  let (_c, s1) := get_database cfg s
  (guarded 503 (do
      let _ ← st.ping
      pure healthyBody), s1)

/-- `GET /api/questions` of `src/main.py`: `to_list(length=100)`. -/
def get_questions (cfg : Config) (s : DbState) (st : Store) :
    Except Exc BVal × DbState :=
  let (_c, s1) := get_database cfg s
  (guarded 500 (do
      let qs ← st.findQuestions
      pure (BVal.vlist ((toListLen (some 100) qs).map questionPayload))), s1)

/-- `GET /api/questions/{question_id}` of `src/main.py`.  Note the 404 is
raised inside the `try` block. -/
def get_question (cfg : Config) (s : DbState) (st : Store) (question_id : String) :
    Except Exc BVal × DbState :=
  let (_c, s1) := get_database cfg s
  (guarded 500 (do
      let oid ← match objectIdOfString question_id with
                | some o => Except.ok o
                | none => Except.error (Exc.dbExc "InvalidId")
      let q ← st.findOneQuestion oid
      match q with
      | none => Except.error (Exc.httpExc 404 "Question not found")
      | some qd => pure (questionPayload qd)), s1)

/-- `POST /api/responses` of `src/main.py`, after body validation:
`response_dict = response.dict()`, then
`response_dict["submitted_at"] = datetime.utcnow()` (`now`, UTC), then insert. -/
def submit_response (cfg : Config) (s : DbState) (st : Store) (now : Int)
    (r : ResponseIn) : Except Exc BVal × DbState × Store :=
  let (_c, s1) := get_database cfg s
  match (do
      let rd := dictSet (responseModelDict r) "submitted_at" (BVal.vdt now)
      let os ← st.insertOneResponse rd
      pure (BVal.vobj [("response_id", BVal.vstr (objectIdToString os.1))], os.2)
      : Except Exc (BVal × Store)) with
  | .ok vs => (.ok vs.1, s1, vs.2)
  | .error e => (.error (.httpExc 500 (excMsg e)), s1, st)

/-- The `POST /api/responses` route including FastAPI's schema validation:
a body that fails validation is answered 422 before the handler runs. -/
def route_submit (cfg : Config) (s : DbState) (st : Store) (now : Int)
    (body : Dict) : Except Exc BVal × DbState × Store :=
  match parseResponseBody body with
  | none => (.error (.httpExc 422 "Unprocessable Entity"), s, st)
  | some r => submit_response cfg s st now r

/-- `GET /api/responses/{question_id}` of `src/main.py`: `to_list(length=100)`. -/
def get_responses (cfg : Config) (s : DbState) (st : Store) (question_id : String) :
    Except Exc BVal × DbState :=
  let (_c, s1) := get_database cfg s
  (guarded 500 (do
      let rs ← st.findResponses question_id
      pure (BVal.vlist ((toListLen (some 100) rs).map responsePayload))), s1)

/-- The shutdown event: close the cached client if one exists. -/
def shutdown_db_client (s : DbState) : DbState :=
  match s.cached with
  | some _ => { s with closes := s.closes + 1 }
  | none => s

end Main

/-! ## The `src/api/index.py` revision: a fresh client per request -/

namespace ApiIndex

/-- `AsyncIOMotorClient(MONGODB_URL)` with the driver's default options
(pymongo defaults: server selection 30000ms, connect 20000ms, no socket
timeout, pool 100/0, no max idle time, retryable writes on). -/
def mkClient (url : Option String) : Client :=
  { url := url, serverSelectionTimeoutMS := 30000, connectTimeoutMS := 20000,
    socketTimeoutMS := 0, maxPoolSize := 100, minPoolSize := 0,
    maxIdleTimeMS := 0, retryWrites := true }

/-- `get_db()`: constructs a brand-new client on every call. -/
def get_db (cfg : Config) (s : DbState) : Client × DbState :=
  (mkClient cfg.mongodbUrl, { s with allocs := s.allocs + 1 })

/-- `client.close()`. -/
def closeClient (s : DbState) : DbState :=
  { s with closes := s.closes + 1 }

/-- `GET /api/health` of `src/api/index.py`: get a client, ping, close;
any failure becomes a 500 (not 503). -/
def health_check (cfg : Config) (s : DbState) (st : Store) :
    Except Exc BVal × DbState :=
  let (_c, s1) := get_db cfg s
  match st.ping with
  | .ok _ => (.ok healthyBody, closeClient s1)
  | .error e =>
      (.error (.httpExc 500 ("Database connection error: " ++ excMsg e)), s1)

/-- `GET /api/questions` of `src/api/index.py`: `to_list(length=None)` — no cap. -/
def get_questions (cfg : Config) (s : DbState) (st : Store) :
    Except Exc BVal × DbState :=
  let (_c, s1) := get_db cfg s
  match st.findQuestions with
  | .ok qs =>
      (.ok (BVal.vlist ((toListLen none qs).map questionPayload)), closeClient s1)
  | .error e =>
      (.error (.httpExc 500 ("Error fetching questions: " ++ excMsg e)), s1)

/-- `GET /api/questions/{question_id}` of `src/api/index.py`: the client is
closed right after `find_one`, and the 404 is raised inside the `try`. -/
def get_question (cfg : Config) (s : DbState) (st : Store) (question_id : String) :
    Except Exc BVal × DbState :=
  let (_c, s1) := get_db cfg s
  let inner : Except Exc BVal × DbState :=
    match objectIdOfString question_id with
    | none => (.error (.dbExc "InvalidId"), s1)
    | some oid =>
        match st.findOneQuestion oid with
        | .error e => (.error e, s1)
        | .ok q =>
            let s2 := closeClient s1
            match q with
            | some qd => (.ok (questionPayload qd), s2)
            | none => (.error (.httpExc 404 "Question not found"), s2)
  match inner.1 with
  | .ok v => (.ok v, inner.2)
  | .error e =>
      (.error (.httpExc 500 ("Error fetching question: " ++ excMsg e)), inner.2)

/-- `POST /api/responses` of `src/api/index.py`, after body validation. -/
def submit_response (cfg : Config) (s : DbState) (st : Store) (now : Int)
    (r : ResponseIn) : Except Exc BVal × DbState × Store :=
  let (_c, s1) := get_db cfg s
  let rd := dictSet (responseModelDict r) "submitted_at" (BVal.vdt now)
  match st.insertOneResponse rd with
  | .ok os =>
      (.ok (BVal.vobj [("response_id", BVal.vstr (objectIdToString os.1))]),
       closeClient s1, os.2)
  | .error e =>
      (.error (.httpExc 500 ("Error submitting response: " ++ excMsg e)), s1, st)

/-- The `POST /api/responses` route including FastAPI's schema validation. -/
def route_submit (cfg : Config) (s : DbState) (st : Store) (now : Int)
    (body : Dict) : Except Exc BVal × DbState × Store :=
  match parseResponseBody body with
  | none => (.error (.httpExc 422 "Unprocessable Entity"), s, st)
  | some r => submit_response cfg s st now r

/-- `GET /api/responses/{question_id}` of `src/api/index.py`:
`to_list(length=None)` — no cap; close after serializing. -/
def get_responses (cfg : Config) (s : DbState) (st : Store) (question_id : String) :
    Except Exc BVal × DbState :=
  let (_c, s1) := get_db cfg s
  match st.findResponses question_id with
  | .ok rs =>
      (.ok (BVal.vlist ((toListLen none rs).map responsePayload)), closeClient s1)
  | .error e =>
      (.error (.httpExc 500 ("Error fetching responses: " ++ excMsg e)), s1)

end ApiIndex

/-! ## Concrete fixtures -/

def cfg0 : Config := { mongodbUrl := some "mongodb+srv://example" }

def dbs0 : DbState := DbState.fresh

/-- A `DbState` after the `src/main.py` client has been created once. -/
def dbsInit : DbState :=
  { cached := some (Main.mkClient (some "mongodb+srv://example")), allocs := 1, closes := 0 }

def q0 : QuestionDoc :=
  { oid := oidOfNat 0, question_text := "Favourite colour?", qtype := "multiple-choice",
    options := some ["red", "blue"], scale := none }

def stEmpty : Store := { reachable := true, questions := [], responses := [], nextId := 0 }

def stOne : Store := { reachable := true, questions := [q0], responses := [], nextId := 1 }

def stDown : Store := { reachable := false, questions := [], responses := [], nextId := 0 }

/-- A reachable store holding 101 question documents. -/
def st101 : Store :=
  { reachable := true,
    questions := (List.range 101).map (fun i => { q0 with oid := oidOfNat i }),
    responses := [], nextId := 101 }

def r0 : ResponseIn :=
  { question_id := "q1", response_text := .rstr "yes", submitted_at := 7 }

/-- A schema-valid body: the three declared fields, no id. -/
def body3 : Dict :=
  [("question_id", .vstr "q1"), ("response_text", .vstr "yes"),
   ("submitted_at", .vint 7)]

/-- A body with only `question_id` and the response value — no timestamp. -/
def bodyNoTs : Dict :=
  [("question_id", .vstr "q1"), ("response_text", .vstr "yes")]

/-- A schema-valid body carrying an undeclared extra field. -/
def bodyExtra : Dict := ("survey", .vstr "s1") :: body3

def envEmpty : String → Option String := fun _ => none

/-- Number of items in a handler result that returned a JSON array. -/
def payloadCount : Except Exc BVal → Nat
  | .ok (.vlist l) => l.length
  | _ => 0

/-- The `_id` field of a returned object payload. -/
def payloadIdField : Except Exc BVal → Option BVal
  | .ok (.vobj d) => dictGet d "_id"
  | _ => none

/-! ## Claim theorems -/

theorem charNibble_nibbleChar (n : Fin 16) : charNibble (nibbleChar n) = some n := by
  revert n
  decide

theorem parseNibbles_map (ns : List (Fin 16)) :
    parseNibbles (ns.map nibbleChar) = some ns := by
  induction ns with
  | nil => rfl
  | cons n rest ih =>
      simp [parseNibbles, charNibble_nibbleChar, ih]

/-- The hex round trip: converting an ObjectId to its string form and parsing
it back yields the same identifier. -/
theorem objectId_roundtrip (o : ObjectId) :
    objectIdOfString (objectIdToString o) = some o := by
  unfold objectIdOfString objectIdToString
  rw [show (String.mk (o.val.map nibbleChar)).data = o.val.map nibbleChar from rfl]
  rw [parseNibbles_map]
  simp [o.property]

theorem ok_bind_exc {α β : Type} (a : α) (f : α → Except Exc β) :
    ((Except.ok a : Except Exc α) >>= f) = f a := rfl

theorem pure_exc {α : Type} (a : α) : (pure a : Except Exc α) = Except.ok a := rfl

/-- C1: the spec demands 404 (never 500) for a well-formed id with no stored
question, and the code's own `raise HTTPException(404, "Question not found")`
shows the same intent — but in both revisions that raise sits inside the
`try` block, so the blanket `except Exception` re-raises it as a 500.  At the
well-formed id `"000000000000000000000000"` on a reachable store without that
question, both handlers answer 500. -/
theorem get_question_missing_id_yields_500 :
    statusOf (Main.get_question cfg0 dbs0 stEmpty (objectIdToString (oidOfNat 0))).1 = 500 ∧
    statusOf (ApiIndex.get_question cfg0 dbs0 stEmpty (objectIdToString (oidOfNat 0))).1 = 500 := by
  exact ⟨rfl, rfl⟩

theorem responseModelDict_set (r : ResponseIn) (now : Int) :
    dictSet (responseModelDict r) "submitted_at" (BVal.vdt now) =
      [("question_id", BVal.vstr r.question_id),
       ("response_text", encodeRText r.response_text),
       ("submitted_at", BVal.vdt now)] := by
  simp [responseModelDict, dictSet]

theorem responseModelDict_set_get (r : ResponseIn) (now : Int) :
    dictGet (dictSet (responseModelDict r) "submitted_at" (BVal.vdt now))
      "submitted_at" = some (BVal.vdt now) := by
  rw [responseModelDict_set]
  simp [dictGet]

/-- C2: in both revisions `submit_response` overwrites `submitted_at` with
the server's `datetime.utcnow()` reading (`now`, UTC) after
`response.dict()`: the inserted document carries exactly the server time,
differs from every client-supplied value other than the server time itself,
and each handler's entire result is unchanged when the client-supplied
`submitted_at` changes. -/
theorem submit_response_server_timestamp
    (cfg : Config) (s : DbState) (st : Store) (now : Int) (r : ResponseIn)
    (h : st.reachable = true) :
    (Main.submit_response cfg s st now r).2.2.responses =
      st.responses ++ [(oidOfNat st.nextId,
        dictSet (responseModelDict r) "submitted_at" (BVal.vdt now))] ∧
    (ApiIndex.submit_response cfg s st now r).2.2.responses =
      st.responses ++ [(oidOfNat st.nextId,
        dictSet (responseModelDict r) "submitted_at" (BVal.vdt now))] ∧
    dictGet (dictSet (responseModelDict r) "submitted_at" (BVal.vdt now))
      "submitted_at" = some (BVal.vdt now) ∧
    (∀ t : Int, t ≠ now →
      dictGet (dictSet (responseModelDict r) "submitted_at" (BVal.vdt now))
        "submitted_at" ≠ some (BVal.vdt t)) ∧
    (∀ t : Int,
      Main.submit_response cfg s st now { r with submitted_at := t } =
        Main.submit_response cfg s st now r) ∧
    (∀ t : Int,
      ApiIndex.submit_response cfg s st now { r with submitted_at := t } =
        ApiIndex.submit_response cfg s st now r) := by
  refine ⟨?_, ?_, responseModelDict_set_get r now, ?_, ?_, ?_⟩
  · simp [Main.submit_response, Main.get_database, Main.get_client,
      Store.insertOneResponse, h]
  · simp [ApiIndex.submit_response, ApiIndex.get_db, ApiIndex.closeClient,
      Store.insertOneResponse, h]
  · intro t ht
    rw [responseModelDict_set_get]
    simp only [ne_eq, Option.some.injEq, BVal.vdt.injEq]
    exact fun hc => ht hc.symm
  · intro t
    simp [Main.submit_response, responseModelDict, dictSet]
  · intro t
    simp [ApiIndex.submit_response, responseModelDict, dictSet]

theorem submit_response_server_timestamp_witness :
    stEmpty.reachable = true ∧
    ((Main.submit_response cfg0 dbs0 stEmpty 5 r0).2.2.responses =
      stEmpty.responses ++ [(oidOfNat stEmpty.nextId,
        dictSet (responseModelDict r0) "submitted_at" (BVal.vdt 5))] ∧
    (ApiIndex.submit_response cfg0 dbs0 stEmpty 5 r0).2.2.responses =
      stEmpty.responses ++ [(oidOfNat stEmpty.nextId,
        dictSet (responseModelDict r0) "submitted_at" (BVal.vdt 5))] ∧
    dictGet (dictSet (responseModelDict r0) "submitted_at" (BVal.vdt 5))
      "submitted_at" = some (BVal.vdt 5) ∧
    ((9 : Int) ≠ 5 →
      dictGet (dictSet (responseModelDict r0) "submitted_at" (BVal.vdt 5))
        "submitted_at" ≠ some (BVal.vdt 9)) ∧
    Main.submit_response cfg0 dbs0 stEmpty 5 { r0 with submitted_at := 9 } =
      Main.submit_response cfg0 dbs0 stEmpty 5 r0 ∧
    ApiIndex.submit_response cfg0 dbs0 stEmpty 5 { r0 with submitted_at := 9 } =
      ApiIndex.submit_response cfg0 dbs0 stEmpty 5 r0) := by
  have h := submit_response_server_timestamp cfg0 dbs0 stEmpty 5 r0 rfl
  exact ⟨rfl, h.1, h.2.1, h.2.2.1, fun hne => h.2.2.2.1 9 hne,
    h.2.2.2.2.1 9, h.2.2.2.2.2 9⟩

/-- C3 counterexample: the claim quantifies over both revisions, but
`src/api/index.py` reads the cursor with `to_list(length=None)`: on a store
holding 101 question documents its `get_questions` returns all 101, above
the 100-document cap used by `src/main.py`. -/
theorem apiIndex_get_questions_no_cap_101 :
    payloadCount (ApiIndex.get_questions cfg0 dbs0 st101).1 = 101 := by
  simp [ApiIndex.get_questions, ApiIndex.get_db, Store.findQuestions, st101,
    payloadCount, toListLen]

/-- C3 amended: the `src/main.py` handler reads `to_list(length=100)` and so
returns at most 100 questions for every store state, while the
`src/api/index.py` handler has no cap and returns every stored question. -/
theorem get_questions_cap (cfg : Config) (s : DbState) (st : Store) :
    payloadCount (Main.get_questions cfg s st).1 ≤ 100 ∧
    (st.reachable = true →
      payloadCount (ApiIndex.get_questions cfg s st).1 = st.questions.length) := by
  constructor
  · cases h : st.reachable with
    | true =>
        simp [Main.get_questions, Main.get_database, Main.get_client, guarded,
          Store.findQuestions, payloadCount, toListLen, h]
    | false =>
        simp [Main.get_questions, Main.get_database, Main.get_client, guarded,
          Store.findQuestions, payloadCount, toListLen, h]
  · intro h
    simp [ApiIndex.get_questions, ApiIndex.get_db, Store.findQuestions,
      payloadCount, toListLen, h]

theorem get_questions_cap_witness :
    payloadCount (Main.get_questions cfg0 dbs0 st101).1 ≤ 100 ∧
    payloadCount (ApiIndex.get_questions cfg0 dbs0 st101).1 =
      st101.questions.length := by
  exact ⟨(get_questions_cap cfg0 dbs0 st101).1,
         (get_questions_cap cfg0 dbs0 st101).2 rfl⟩

/-- C4 counterexample: in `src/api/index.py` every handler call runs
`get_db()`, which constructs a brand-new `AsyncIOMotorClient`, and closes it
before returning: one health-check request allocates and closes a client,
and a second request allocates a second one — not one client per process. -/
theorem apiIndex_per_request_clients :
    ((ApiIndex.health_check cfg0 dbs0 stEmpty).2).allocs = 1 ∧
    ((ApiIndex.health_check cfg0 dbs0 stEmpty).2).closes = 1 ∧
    ((ApiIndex.health_check cfg0
        (ApiIndex.health_check cfg0 dbs0 stEmpty).2 stEmpty).2).allocs = 2 := by
  exact ⟨rfl, rfl, rfl⟩

/-- C4 amended: in `src/main.py` the client is constructed lazily exactly
once — on an uninitialized `Database.client` the first `get_client` call
constructs and caches it (one allocation), a repeated call returns that same
client with no new allocation, and every handler leaves the client state
untouched once it is cached — while in `src/api/index.py` every one of the
five handlers constructs one fresh client per call and, on its success path,
closes it before returning. -/
theorem client_lifecycle_by_revision
    (cfg : Config) (s s0 : DbState) (st : Store) (c : Client) (qid : String)
    (oid : ObjectId) (now : Int) (r : ResponseIn)
    (h : s.cached = some c) (h0 : s0.cached = none)
    (hq : objectIdOfString qid = some oid) :
    Main.get_client cfg s0 =
      (Main.mkClient cfg.mongodbUrl,
       { cached := some (Main.mkClient cfg.mongodbUrl),
         allocs := s0.allocs + 1, closes := s0.closes }) ∧
    Main.get_client cfg ((Main.get_client cfg s0).2) =
      ((Main.get_client cfg s0).1, (Main.get_client cfg s0).2) ∧
    Main.get_client cfg s = (c, s) ∧
    (Main.health_check cfg s st).2 = s ∧
    (Main.get_questions cfg s st).2 = s ∧
    (Main.get_question cfg s st qid).2 = s ∧
    (Main.submit_response cfg s st now r).2.1 = s ∧
    (Main.get_responses cfg s st qid).2 = s ∧
    ((ApiIndex.health_check cfg s st).2).allocs = s.allocs + 1 ∧
    ((ApiIndex.get_questions cfg s st).2).allocs = s.allocs + 1 ∧
    ((ApiIndex.get_question cfg s st qid).2).allocs = s.allocs + 1 ∧
    ((ApiIndex.submit_response cfg s st now r).2.1).allocs = s.allocs + 1 ∧
    ((ApiIndex.get_responses cfg s st qid).2).allocs = s.allocs + 1 ∧
    (st.reachable = true →
      ((ApiIndex.health_check cfg s st).2).closes = s.closes + 1 ∧
      ((ApiIndex.get_questions cfg s st).2).closes = s.closes + 1 ∧
      ((ApiIndex.get_question cfg s st qid).2).closes = s.closes + 1 ∧
      ((ApiIndex.submit_response cfg s st now r).2.1).closes = s.closes + 1 ∧
      ((ApiIndex.get_responses cfg s st qid).2).closes = s.closes + 1) := by
  have hfirst : Main.get_client cfg s0 =
      (Main.mkClient cfg.mongodbUrl,
       { cached := some (Main.mkClient cfg.mongodbUrl),
         allocs := s0.allocs + 1, closes := s0.closes }) := by
    simp [Main.get_client, h0]
  refine ⟨hfirst, ?_, ?_, ?_, ?_, ?_, ?_, ?_, ?_, ?_, ?_, ?_, ?_, ?_⟩
  · rw [hfirst]
    simp [Main.get_client]
  · simp [Main.get_client, h]
  · simp [Main.health_check, Main.get_database, Main.get_client, h]
  · simp [Main.get_questions, Main.get_database, Main.get_client, h]
  · simp [Main.get_question, Main.get_database, Main.get_client, h]
  · cases h2 : Store.insertOneResponse st
        (dictSet (responseModelDict r) "submitted_at" (BVal.vdt now)) with
    | ok os =>
        simp [Main.submit_response, Main.get_database, Main.get_client, h, h2]
    | error e =>
        simp [Main.submit_response, Main.get_database, Main.get_client, h, h2]
  · simp [Main.get_responses, Main.get_database, Main.get_client, h]
  · cases hr : st.reachable with
    | true =>
        simp [ApiIndex.health_check, ApiIndex.get_db, ApiIndex.closeClient,
          Store.ping, hr]
    | false =>
        simp [ApiIndex.health_check, ApiIndex.get_db, ApiIndex.closeClient,
          Store.ping, hr]
  · cases hr : st.reachable with
    | true =>
        simp [ApiIndex.get_questions, ApiIndex.get_db, ApiIndex.closeClient,
          Store.findQuestions, hr]
    | false =>
        simp [ApiIndex.get_questions, ApiIndex.get_db, ApiIndex.closeClient,
          Store.findQuestions, hr]
  · cases hr : st.reachable with
    | true =>
        cases hfq : st.questions.find? (fun q2 => decide (q2.oid = oid)) with
        | none =>
            simp [ApiIndex.get_question, ApiIndex.get_db, ApiIndex.closeClient,
              Store.findOneQuestion, hq, hr, hfq]
        | some qd =>
            simp [ApiIndex.get_question, ApiIndex.get_db, ApiIndex.closeClient,
              Store.findOneQuestion, hq, hr, hfq]
    | false =>
        simp [ApiIndex.get_question, ApiIndex.get_db, ApiIndex.closeClient,
          Store.findOneQuestion, hq, hr]
  · cases hr : st.reachable with
    | true =>
        simp [ApiIndex.submit_response, ApiIndex.get_db, ApiIndex.closeClient,
          Store.insertOneResponse, hr]
    | false =>
        simp [ApiIndex.submit_response, ApiIndex.get_db, ApiIndex.closeClient,
          Store.insertOneResponse, hr]
  · cases hr : st.reachable with
    | true =>
        simp [ApiIndex.get_responses, ApiIndex.get_db, ApiIndex.closeClient,
          Store.findResponses, hr]
    | false =>
        simp [ApiIndex.get_responses, ApiIndex.get_db, ApiIndex.closeClient,
          Store.findResponses, hr]
  · intro hr
    refine ⟨?_, ?_, ?_, ?_, ?_⟩
    · simp [ApiIndex.health_check, ApiIndex.get_db, ApiIndex.closeClient,
        Store.ping, hr]
    · simp [ApiIndex.get_questions, ApiIndex.get_db, ApiIndex.closeClient,
        Store.findQuestions, hr]
    · cases hfq : st.questions.find? (fun q2 => decide (q2.oid = oid)) with
      | none =>
          simp [ApiIndex.get_question, ApiIndex.get_db, ApiIndex.closeClient,
            Store.findOneQuestion, hq, hr, hfq]
      | some qd =>
          simp [ApiIndex.get_question, ApiIndex.get_db, ApiIndex.closeClient,
            Store.findOneQuestion, hq, hr, hfq]
    · simp [ApiIndex.submit_response, ApiIndex.get_db, ApiIndex.closeClient,
        Store.insertOneResponse, hr]
    · simp [ApiIndex.get_responses, ApiIndex.get_db, ApiIndex.closeClient,
        Store.findResponses, hr]

theorem client_lifecycle_by_revision_witness :
    Main.get_client cfg0 dbs0 =
      (Main.mkClient cfg0.mongodbUrl,
       { cached := some (Main.mkClient cfg0.mongodbUrl),
         allocs := dbs0.allocs + 1, closes := dbs0.closes }) ∧
    Main.get_client cfg0 ((Main.get_client cfg0 dbs0).2) =
      ((Main.get_client cfg0 dbs0).1, (Main.get_client cfg0 dbs0).2) ∧
    Main.get_client cfg0 dbsInit =
      (Main.mkClient (some "mongodb+srv://example"), dbsInit) ∧
    (Main.health_check cfg0 dbsInit stOne).2 = dbsInit ∧
    (Main.get_questions cfg0 dbsInit stOne).2 = dbsInit ∧
    (Main.get_question cfg0 dbsInit stOne
      (objectIdToString (oidOfNat 0))).2 = dbsInit ∧
    (Main.submit_response cfg0 dbsInit stOne 5 r0).2.1 = dbsInit ∧
    (Main.get_responses cfg0 dbsInit stOne
      (objectIdToString (oidOfNat 0))).2 = dbsInit ∧
    ((ApiIndex.health_check cfg0 dbsInit stOne).2).allocs =
      dbsInit.allocs + 1 ∧
    ((ApiIndex.get_questions cfg0 dbsInit stOne).2).allocs =
      dbsInit.allocs + 1 ∧
    ((ApiIndex.get_question cfg0 dbsInit stOne
      (objectIdToString (oidOfNat 0))).2).allocs = dbsInit.allocs + 1 ∧
    ((ApiIndex.submit_response cfg0 dbsInit stOne 5 r0).2.1).allocs =
      dbsInit.allocs + 1 ∧
    ((ApiIndex.get_responses cfg0 dbsInit stOne
      (objectIdToString (oidOfNat 0))).2).allocs = dbsInit.allocs + 1 ∧
    ((ApiIndex.health_check cfg0 dbsInit stOne).2).closes =
      dbsInit.closes + 1 ∧
    ((ApiIndex.get_questions cfg0 dbsInit stOne).2).closes =
      dbsInit.closes + 1 ∧
    ((ApiIndex.get_question cfg0 dbsInit stOne
      (objectIdToString (oidOfNat 0))).2).closes = dbsInit.closes + 1 ∧
    ((ApiIndex.submit_response cfg0 dbsInit stOne 5 r0).2.1).closes =
      dbsInit.closes + 1 ∧
    ((ApiIndex.get_responses cfg0 dbsInit stOne
      (objectIdToString (oidOfNat 0))).2).closes = dbsInit.closes + 1 := by
  have h := client_lifecycle_by_revision cfg0 dbsInit dbs0 stOne
    (Main.mkClient (some "mongodb+srv://example"))
    (objectIdToString (oidOfNat 0)) (oidOfNat 0) 5 r0 rfl rfl
    (objectId_roundtrip (oidOfNat 0))
  have hcl := h.2.2.2.2.2.2.2.2.2.2.2.2.2 rfl
  exact ⟨h.1, h.2.1, h.2.2.1, h.2.2.2.1, h.2.2.2.2.1, h.2.2.2.2.2.1,
    h.2.2.2.2.2.2.1, h.2.2.2.2.2.2.2.1, h.2.2.2.2.2.2.2.2.1,
    h.2.2.2.2.2.2.2.2.2.1, h.2.2.2.2.2.2.2.2.2.2.1,
    h.2.2.2.2.2.2.2.2.2.2.2.1, h.2.2.2.2.2.2.2.2.2.2.2.2.1,
    hcl.1, hcl.2.1, hcl.2.2.1, hcl.2.2.2.1, hcl.2.2.2.2⟩

/-- C5 counterexample: with the store unreachable, the `src/api/index.py`
health check answers 500, not the 503 the claim states. -/
theorem apiIndex_health_500_on_down :
    statusOf (ApiIndex.health_check cfg0 dbs0 stDown).1 = 500 := by
  exact rfl

/-- C5 amended: when the ping succeeds both revisions answer 200 with body
`status: healthy, database: connected`; when the store is unreachable,
`src/main.py` answers 503 but `src/api/index.py` answers 500. -/
theorem health_check_statuses
    (cfg : Config) (s : DbState) (stUp stDn : Store)
    (hup : stUp.reachable = true) (hdn : stDn.reachable = false) :
    (Main.health_check cfg s stUp).1 = .ok healthyBody ∧
    statusOf (Main.health_check cfg s stDn).1 = 503 ∧
    (ApiIndex.health_check cfg s stUp).1 = .ok healthyBody ∧
    statusOf (ApiIndex.health_check cfg s stDn).1 = 500 := by
  refine ⟨?_, ?_, ?_, ?_⟩ <;>
    simp [Main.health_check, ApiIndex.health_check, Main.get_database,
      Main.get_client, ApiIndex.get_db, guarded, Store.ping, hup, hdn, statusOf]

theorem health_check_statuses_witness :
    (Main.health_check cfg0 dbs0 stEmpty).1 = .ok healthyBody ∧
    statusOf (Main.health_check cfg0 dbs0 stDown).1 = 503 ∧
    (ApiIndex.health_check cfg0 dbs0 stEmpty).1 = .ok healthyBody ∧
    statusOf (ApiIndex.health_check cfg0 dbs0 stDown).1 = 500 := by
  exact health_check_statuses cfg0 dbs0 stEmpty stDown rfl rfl

/-- C6 counterexample: neither revision checks `MONGODB_URL`. With the
variable absent, module import stores `None`, no configuration error is
raised, and handlers run: the health check of both revisions still answers
200 against a reachable store. -/
theorem missing_url_startup_proceeds :
    (moduleInit envEmpty).mongodbUrl = none ∧
    statusOf (Main.health_check (moduleInit envEmpty) dbs0 stEmpty).1 = 200 ∧
    statusOf (ApiIndex.health_check (moduleInit envEmpty) dbs0 stEmpty).1 = 200 := by
  exact ⟨rfl, rfl, rfl⟩

/-- C6 amended: when the connection-string variable is absent,
`os.getenv` yields `None`, both revisions construct their client with a
`None` connection string, and request handling proceeds normally — there is
no fail-fast startup configuration check. -/
theorem missing_url_defaults_and_serves
    (env : String → Option String) (s : DbState) (st : Store)
    (henv : env "MONGODB_URL" = none) (hst : st.reachable = true) :
    (moduleInit env).mongodbUrl = none ∧
    (Main.get_client (moduleInit env) DbState.fresh).1.url = none ∧
    (ApiIndex.get_db (moduleInit env) s).1.url = none ∧
    (Main.health_check (moduleInit env) s st).1 = .ok healthyBody ∧
    (ApiIndex.health_check (moduleInit env) s st).1 = .ok healthyBody := by
  refine ⟨?_, ?_, ?_, ?_, ?_⟩
  · simp [moduleInit, henv]
  · simp [moduleInit, Main.get_client, DbState.fresh, Main.mkClient, henv]
  · simp [moduleInit, ApiIndex.get_db, ApiIndex.mkClient, henv]
  · simp [Main.health_check, Main.get_database, Main.get_client, guarded,
      Store.ping, hst]
  · simp [ApiIndex.health_check, ApiIndex.get_db, Store.ping, hst]

theorem missing_url_defaults_and_serves_witness :
    (moduleInit envEmpty).mongodbUrl = none ∧
    (Main.get_client (moduleInit envEmpty) DbState.fresh).1.url = none ∧
    (ApiIndex.get_db (moduleInit envEmpty) dbs0).1.url = none ∧
    (Main.health_check (moduleInit envEmpty) dbs0 stEmpty).1 = .ok healthyBody ∧
    (ApiIndex.health_check (moduleInit envEmpty) dbs0 stEmpty).1 = .ok healthyBody := by
  exact missing_url_defaults_and_serves envEmpty dbs0 stEmpty rfl rfl

/-- C7 counterexample: the `Response` pydantic model declares `submitted_at`
as a required field, so the body `question_id + response_text` alone — the
body the claim says is accepted — fails schema validation and is answered
422 by both revisions. -/
theorem no_timestamp_body_rejected_422 :
    statusOf (Main.route_submit cfg0 dbs0 stEmpty 5 bodyNoTs).1 = 422 ∧
    statusOf (ApiIndex.route_submit cfg0 dbs0 stEmpty 5 bodyNoTs).1 = 422 := by
  exact ⟨rfl, rfl⟩

/-- C7 amended: the body needs no id, but it must carry all three declared
fields including `submitted_at` (whose value is then discarded): a body that
fails schema validation — and only such a body — is answered 422, and every
schema-valid body yields the generated response id. -/
theorem route_submit_validation
    (cfg : Config) (s : DbState) (st : Store) (now : Int) (body : Dict)
    (h : st.reachable = true) :
    (parseResponseBody body = none →
      statusOf (Main.route_submit cfg s st now body).1 = 422) ∧
    (∀ r, parseResponseBody body = some r →
      (Main.route_submit cfg s st now body).1 =
        .ok (.vobj [("response_id",
          .vstr (objectIdToString (oidOfNat st.nextId)))])) ∧
    (statusOf (Main.route_submit cfg s st now body).1 = 422 →
      parseResponseBody body = none) := by
  refine ⟨?_, ?_, ?_⟩
  · intro hp
    simp [Main.route_submit, hp, statusOf]
  · intro r hp
    simp [Main.route_submit, hp, Main.submit_response, Main.get_database,
      Main.get_client, Store.insertOneResponse, h]
  · intro hs
    cases hp : parseResponseBody body with
    | none => rfl
    | some r =>
        exfalso
        have h200 : statusOf (Main.route_submit cfg s st now body).1 = 200 := by
          simp [Main.route_submit, hp, Main.submit_response, Main.get_database,
            Main.get_client, Store.insertOneResponse, h, statusOf]
        omega

theorem route_submit_validation_witness :
    (parseResponseBody body3 = none →
      statusOf (Main.route_submit cfg0 dbs0 stEmpty 5 body3).1 = 422) ∧
    ((Main.route_submit cfg0 dbs0 stEmpty 5 body3).1 =
      .ok (.vobj [("response_id",
        .vstr (objectIdToString (oidOfNat stEmpty.nextId)))])) ∧
    (statusOf (Main.route_submit cfg0 dbs0 stEmpty 5 body3).1 = 422 →
      parseResponseBody body3 = none) := by
  have h := route_submit_validation cfg0 dbs0 stEmpty 5 body3 rfl
  exact ⟨h.1, h.2.1 ⟨"q1", .rstr "yes", 7⟩ rfl, h.2.2⟩

/-- C8: for a well-formed id whose ObjectId matches a stored question, both
revisions answer 200 with that question's payload; the payload's `_id`
string is `str(oid)` and parses back to exactly the ObjectId the query used. -/
theorem get_question_id_roundtrip
    (cfg : Config) (s : DbState) (st : Store) (qid : String) (oid : ObjectId)
    (q : QuestionDoc)
    (hp : objectIdOfString qid = some oid)
    (hr : st.reachable = true)
    (hf : st.questions.find? (fun q2 => decide (q2.oid = oid)) = some q) :
    (Main.get_question cfg s st qid).1 = .ok (questionPayload q) ∧
    (ApiIndex.get_question cfg s st qid).1 = .ok (questionPayload q) ∧
    payloadIdField (Main.get_question cfg s st qid).1 =
      some (.vstr (objectIdToString oid)) ∧
    objectIdOfString (objectIdToString oid) = some oid := by
  have hqo : q.oid = oid := by simpa using List.find?_some hf
  have hm : (Main.get_question cfg s st qid).1 = .ok (questionPayload q) := by
    simp [Main.get_question, Main.get_database, Main.get_client, guarded,
      Store.findOneQuestion, hp, hr, hf, ok_bind_exc, pure_exc]
  have ha : (ApiIndex.get_question cfg s st qid).1 = .ok (questionPayload q) := by
    simp [ApiIndex.get_question, ApiIndex.get_db, ApiIndex.closeClient,
      Store.findOneQuestion, hp, hr, hf]
  refine ⟨hm, ha, ?_, ?_⟩
  · rw [hm]
    simp [payloadIdField, questionPayload, dictGet, hqo]
  · exact objectId_roundtrip oid

theorem get_question_id_roundtrip_witness :
    (Main.get_question cfg0 dbs0 stOne (objectIdToString (oidOfNat 0))).1 =
      .ok (questionPayload q0) ∧
    (ApiIndex.get_question cfg0 dbs0 stOne (objectIdToString (oidOfNat 0))).1 =
      .ok (questionPayload q0) ∧
    payloadIdField (Main.get_question cfg0 dbs0 stOne
      (objectIdToString (oidOfNat 0))).1 =
      some (.vstr (objectIdToString (oidOfNat 0))) ∧
    objectIdOfString (objectIdToString (oidOfNat 0)) = some (oidOfNat 0) := by
  exact get_question_id_roundtrip cfg0 dbs0 stOne
    (objectIdToString (oidOfNat 0)) (oidOfNat 0) q0
    (objectId_roundtrip (oidOfNat 0)) rfl (by rfl)

theorem escapes_guarded (n : Nat) (b : Except Exc BVal) :
    escapes (guarded n b) = false := by
  cases b with
  | ok v => rfl
  | error e => rfl

/-- C9: in both revisions, every store operation every handler performs sits
inside the handler's `try`/`except Exception` block: whatever the store
state, each of the ten handlers yields an HTTP response (a value or an
`HTTPException`) and no store-layer exception escapes the handler. -/
theorem handlers_catch_store_failures
    (cfg : Config) (s : DbState) (st : Store) (qid : String) (now : Int)
    (body : Dict) :
    escapes (Main.health_check cfg s st).1 = false ∧
    escapes (Main.get_questions cfg s st).1 = false ∧
    escapes (Main.get_question cfg s st qid).1 = false ∧
    escapes (Main.route_submit cfg s st now body).1 = false ∧
    escapes (Main.get_responses cfg s st qid).1 = false ∧
    escapes (ApiIndex.health_check cfg s st).1 = false ∧
    escapes (ApiIndex.get_questions cfg s st).1 = false ∧
    escapes (ApiIndex.get_question cfg s st qid).1 = false ∧
    escapes (ApiIndex.route_submit cfg s st now body).1 = false ∧
    escapes (ApiIndex.get_responses cfg s st qid).1 = false := by
  refine ⟨escapes_guarded _ _, escapes_guarded _ _, escapes_guarded _ _, ?_,
    escapes_guarded _ _, ?_, ?_, ?_, ?_, ?_⟩
  · cases hp : parseResponseBody body with
    | none => simp [Main.route_submit, hp, escapes]
    | some r =>
        cases h2 : Store.insertOneResponse st
            (dictSet (responseModelDict r) "submitted_at" (BVal.vdt now)) with
        | ok os =>
            simp [Main.route_submit, hp, Main.submit_response,
              Main.get_database, Main.get_client, h2, escapes]
        | error e =>
            simp [Main.route_submit, hp, Main.submit_response,
              Main.get_database, Main.get_client, h2, escapes]
  · cases hr : st.reachable with
    | true =>
        simp [ApiIndex.health_check, ApiIndex.get_db, ApiIndex.closeClient,
          Store.ping, hr, escapes]
    | false =>
        simp [ApiIndex.health_check, ApiIndex.get_db, ApiIndex.closeClient,
          Store.ping, hr, escapes]
  · cases hr : st.reachable with
    | true =>
        simp [ApiIndex.get_questions, ApiIndex.get_db, ApiIndex.closeClient,
          Store.findQuestions, hr, escapes]
    | false =>
        simp [ApiIndex.get_questions, ApiIndex.get_db, ApiIndex.closeClient,
          Store.findQuestions, hr, escapes]
  · cases hp2 : objectIdOfString qid with
    | none => simp [ApiIndex.get_question, ApiIndex.get_db, hp2, escapes]
    | some oid =>
        cases hr : st.reachable with
        | false =>
            simp [ApiIndex.get_question, ApiIndex.get_db,
              Store.findOneQuestion, hp2, hr, escapes]
        | true =>
            cases hq : st.questions.find? (fun q2 => decide (q2.oid = oid)) with
            | none =>
                simp [ApiIndex.get_question, ApiIndex.get_db,
                  ApiIndex.closeClient, Store.findOneQuestion, hp2, hr, hq,
                  escapes]
            | some qd =>
                simp [ApiIndex.get_question, ApiIndex.get_db,
                  ApiIndex.closeClient, Store.findOneQuestion, hp2, hr, hq,
                  escapes]
  · cases hp : parseResponseBody body with
    | none => simp [ApiIndex.route_submit, hp, escapes]
    | some r =>
        cases h2 : Store.insertOneResponse st
            (dictSet (responseModelDict r) "submitted_at" (BVal.vdt now)) with
        | ok os =>
            simp [ApiIndex.route_submit, hp, ApiIndex.submit_response,
              ApiIndex.get_db, ApiIndex.closeClient, h2, escapes]
        | error e =>
            simp [ApiIndex.route_submit, hp, ApiIndex.submit_response,
              ApiIndex.get_db, ApiIndex.closeClient, h2, escapes]
  · cases hr : st.reachable with
    | true =>
        simp [ApiIndex.get_responses, ApiIndex.get_db, ApiIndex.closeClient,
          Store.findResponses, hr, escapes]
    | false =>
        simp [ApiIndex.get_responses, ApiIndex.get_db, ApiIndex.closeClient,
          Store.findResponses, hr, escapes]

/-- C10: the document handed to `insert_one` is `response.dict()` with
`submitted_at` overwritten: its keys are exactly `question_id`,
`response_text`, `submitted_at`, and pydantic validation ignores any
undeclared field in the client body, so extra fields never reach the store. -/
theorem inserted_document_fields
    (cfg : Config) (s : DbState) (st : Store) (now : Int) (body : Dict)
    (r : ResponseIn) (h : st.reachable = true)
    (hp : parseResponseBody body = some r) :
    (Main.route_submit cfg s st now body).2.2.responses =
      st.responses ++ [(oidOfNat st.nextId,
        dictSet (responseModelDict r) "submitted_at" (BVal.vdt now))] ∧
    (dictSet (responseModelDict r) "submitted_at" (BVal.vdt now)).map
      Prod.fst = ["question_id", "response_text", "submitted_at"] ∧
    (∀ (k : String) (v : BVal), k ≠ "question_id" → k ≠ "response_text" →
      k ≠ "submitted_at" →
      parseResponseBody ((k, v) :: body) = parseResponseBody body) := by
  refine ⟨?_, ?_, ?_⟩
  · simp [Main.route_submit, hp, Main.submit_response, Main.get_database,
      Main.get_client, Store.insertOneResponse, h]
  · rw [responseModelDict_set]
    rfl
  · intro k v hk1 hk2 hk3
    simp [parseResponseBody, dictGet, hk1, hk2, hk3]

theorem inserted_document_fields_witness :
    (Main.route_submit cfg0 dbs0 stEmpty 5 bodyExtra).2.2.responses =
      stEmpty.responses ++ [(oidOfNat stEmpty.nextId,
        dictSet (responseModelDict ⟨"q1", .rstr "yes", 7⟩) "submitted_at"
          (BVal.vdt 5))] ∧
    (dictSet (responseModelDict ⟨"q1", .rstr "yes", 7⟩) "submitted_at"
      (BVal.vdt 5)).map Prod.fst =
      ["question_id", "response_text", "submitted_at"] ∧
    parseResponseBody (("note", .vint 2) :: bodyExtra) =
      parseResponseBody bodyExtra := by
  have h := inserted_document_fields cfg0 dbs0 stEmpty 5 bodyExtra
    ⟨"q1", .rstr "yes", 7⟩ rfl rfl
  exact ⟨h.1, h.2.1, h.2.2 "note" (.vint 2) (by decide) (by decide) (by decide)⟩

end Survey
